import Mathlib

/-!
Verification development for the SAStocks sentiment-scoring pipeline
(src/sa_stocks.py).  The Python source is shallowly embedded: pure
computations become Lean functions over `ℚ` (Python floats are modelled as
rationals), values that may be Python `None` become `Option ℚ`, and a Python
run-time exception (TypeError on `None` comparison, ZeroDivisionError,
pandas KeyError, pickle errors, request failures) becomes `Except Unit _`.
External collaborators (HTTP providers, the OpenAI client, the VADER
analyzer's compound score, the filesystem, the clock) are passed in as
explicit parameters, exactly at the call sites where the Python code invokes
them.
-/

deriving instance DecidableEq for Except

namespace SAStocks

/-- One news-article row as persisted in the `news_articles` table
(`save_news_to_db`); the `date` column is an external timestamp and is
dropped where it is never read. -/
structure RawArticle where
  title : String
  description : String
deriving DecidableEq

/-- The `sentiment_scores` dict built at the top of `main`
(src/sa_stocks.py:344-346): numeric weight of each sentiment label.
Looking up any other string raises `KeyError` in Python, modelled as
`none`. -/
def sentiment_scores (l : String) : Option ℚ :=
  if l = "Very good" then some 1
  else if l = "Good" then some (1/2)
  else if l = "Neutral" then some 0
  else if l = "UNKNOWN" then some 0
  else if l = "ERROR" then some 0
  else if l = "Error" then some 0
  else if l = "Bad" then some (-(1/2))
  else if l = "Very bad" then some (-1)
  else none

/-- `sum([sentiment_scores[sentiment] for sentiment in labels])` as computed
in `main` (src/sa_stocks.py:421-422).  Every label the two strategies can
produce is a key of the dict, so the lookup is totalised with default 0. -/
def sentimentTotal (ls : List String) : ℚ :=
  (ls.map (fun l => (sentiment_scores l).getD 0)).sum

/-- The seven-label set of the spec's data model: five canonical labels plus
Unknown and Error. -/
def sentimentLabels : List String :=
  ["Very good", "Good", "Neutral", "Bad", "Very bad", "UNKNOWN", "Error"]

/-- Tail of `calculate_aggregated_score` (src/sa_stocks.py:289-310) after the
price score has been determined: news-volume, RSI and MACD scores and the
final fusion.  `rsi` and `macd` may be Python `None` (`get_rsi`/`get_macd`
return `None` on absence); comparing `None` with a number raises TypeError,
modelled as `.error ()`. -/
def restOfScore (vader_score gpt_score price_score : ℚ) (news_volume : ℤ)
    (rsi macd : Option ℚ) : Except Unit ℚ :=
  match rsi with
  | none => .error ()
  | some rs =>
    match macd with
    | none => .error ()
    | some m =>
      .ok ((vader_score + gpt_score + price_score
        + (if news_volume > 10 then (1 : ℚ) else if news_volume < 5 then -1 else 0)
        + (if rs < 30 then (-1 : ℚ) else if rs > 70 then 1 else 0)
        + (if m < 0 then (-1 : ℚ) else if m > 0 then 1 else 0)) / 6)

/-- `calculate_aggregated_score` (src/sa_stocks.py:278-310).  Parameter order
follows the source.  `num_articles = 0` raises ZeroDivisionError; a `None`
among the prices / indicators raises TypeError at its first comparison
(note: when `recent_price < historical_price_low` holds, Python never
compares against `historical_price_high`, so a `None` high is not an error
on that path). -/
def calculate_aggregated_score (vader_total gpt_total : ℚ)
    (historical_price_low historical_price_high recent_price : Option ℚ)
    (news_volume : ℤ) (rsi macd : Option ℚ) (num_articles : ℕ) : Except Unit ℚ :=
  if num_articles = 0 then .error () else
  let vader_score := vader_total / (num_articles : ℚ)
  let gpt_score := gpt_total / (num_articles : ℚ)
  match recent_price, historical_price_low with
  | some r, some l =>
    if r < l then
      restOfScore vader_score gpt_score (-1) news_volume rsi macd
    else
      match historical_price_high with
      | some h =>
        restOfScore vader_score gpt_score (if r > h then 1 else 0) news_volume rsi macd
      | none => .error ()
  | _, _ => .error ()

/-- The bin lookup of `vader_sentiment_analysis` (src/sa_stocks.py:168-174):
`pd.IntervalIndex.from_breaks([-1, -0.8, -0.35, 0.35, 0.8, 1], closed='left')`
builds the five left-closed right-open intervals
[-1,-0.8), [-0.8,-0.35), [-0.35,0.35), [0.35,0.8), [0.8,1), and
`idx.get_loc(compound)` returns the label at the index of the interval
containing the value, raising `KeyError` (modelled as `none`) when no
interval contains it. -/
def vaderLabelOfCompound (c : ℚ) : Option String :=
  if -1 ≤ c ∧ c < -(8/10) then some "Very bad"
  else if -(8/10) ≤ c ∧ c < -(35/100) then some "Bad"
  else if -(35/100) ≤ c ∧ c < 35/100 then some "Neutral"
  else if 35/100 ≤ c ∧ c < 8/10 then some "Good"
  else if 8/10 ≤ c ∧ c < 1 then some "Very good"
  else none

/-- `vader_sentiment_analysis` (src/sa_stocks.py:165-175) over the persisted
`(date, title, description)` rows of a ticker; the external VADER analyzer's
compound polarity score for a text is the parameter `compound`.  Rows with an
empty title or description are filtered out; a compound score contained in no
bin raises `KeyError`, aborting the whole call. -/
def vader_sentiment_analysis (compound : String → ℚ) :
    List (String × String × String) → Except Unit (List String)
  | [] => .ok []
  | (_, title, desc) :: rest =>
    if title ≠ "" ∧ desc ≠ "" then
      match vaderLabelOfCompound (compound (title ++ " " ++ desc)) with
      | none => .error ()
      | some lab =>
        match vader_sentiment_analysis compound rest with
        | .error e => .error e
        | .ok ls => .ok (lab :: ls)
    else vader_sentiment_analysis compound rest

/-- The five canonical labels accepted from the model's first response line
(src/sa_stocks.py:209). -/
def canonicalLabels : List String := ["Very good", "Good", "Neutral", "Bad", "Very bad"]

/-- `full_response.split('\n')[0].strip()` applied to the stripped response
content (src/sa_stocks.py:204-205). -/
def firstLine (s : String) : String :=
  (((s.trim).splitOn "\n").headD "").trim

/-- The inner `while max_retries > 0` loop of `gpt_sentiment_analysis`
(src/sa_stocks.py:184-220) for one article.  The external
`client.chat.completions.create` call is the `oracle`, consumed at an
increasing call index; an `Exception` from it is `.error`.  Python
decrements `max_retries` at the top of the loop body, also on calls that
succeed.  Returns (remaining budget, next call index, labels appended). -/
def gptTryArticle (oracle : ℕ → Except Unit String) : ℕ → ℕ → ℕ × ℕ × List String
  | 0, idx => (0, idx, [])
  | b + 1, idx =>
    match oracle idx with
    | .ok resp =>
      let s0 := firstLine resp
      (b, idx + 1, [if s0 ∈ canonicalLabels then s0 else "UNKNOWN"])
    | .error _ =>
      if b = 0 then (0, idx + 1, ["Error"])
      else gptTryArticle oracle b (idx + 1)

/-- The article loop of `gpt_sentiment_analysis` (src/sa_stocks.py:181-221):
rows with an empty title or description are filtered out; the retry budget
and the oracle position thread through from one article to the next because
`max_retries` is a single Python local of the enclosing function. -/
def gptRun (oracle : ℕ → Except Unit String) :
    List (String × String × String) → ℕ → ℕ → List String
  | [], _, _ => []
  | (_, title, desc) :: rest, budget, idx =>
    if title ≠ "" ∧ desc ≠ "" then
      let r := gptTryArticle oracle budget idx
      r.2.2 ++ gptRun oracle rest r.1 r.2.1
    else gptRun oracle rest budget idx

/-- `gpt_sentiment_analysis` (src/sa_stocks.py:178-221) over the persisted
`(date, title, description)` rows of a ticker, with the model transport as
`oracle` and the source's default `max_retries=4`. -/
def gpt_sentiment_analysis (oracle : ℕ → Except Unit String)
    (rows : List (String × String × String)) (max_retries : ℕ := 4) : List String :=
  gptRun oracle rows max_retries 0

/-- Modelled from the spec: the backoff of the RetryExecutor.  The code
configures the external `retrying` library with
`@retry(stop_max_attempt_number=7, wait_exponential_multiplier=1000,
wait_exponential_max=10000)` (src/sa_stocks.py:110); the executor's own code
is missing from src, so the delay before attempt k (k ≥ 2) —
min(1000ms * 2^(k-2), 10000ms) — follows the spec's words. -/
def retryWait (k : ℕ) : ℕ := min (1000 * 2 ^ (k - 2)) 10000

/-- Trace of one retry-executor run: the number of the last attempt made,
the sleeps performed before attempts 2, ..., attempts, and the outcome
handed to the caller. -/
structure RetryTrace (α : Type) where
  attempts : ℕ
  delays : List ℕ
  result : Except Unit α
deriving DecidableEq

/-- Modelled from the spec: the retry loop of the external `retrying`
library — run `call` at attempt number `k` with `n` attempts still allowed,
retrying on any signalled failure and propagating the failure on
exhaustion, never substituting a default value. -/
def retryFrom {α : Type} (call : ℕ → Except Unit α) : ℕ → ℕ → RetryTrace α
  | 0, k => ⟨k - 1, [], .error ()⟩
  | n + 1, k =>
    match call k with
    | .ok a => ⟨k, [], .ok a⟩
    | .error _ =>
      if n = 0 then ⟨k, [], .error ()⟩
      else
        let t := retryFrom call n (k + 1)
        ⟨t.attempts, retryWait (k + 1) :: t.delays, t.result⟩

/-- Modelled from the spec: `requests_get_with_retry`
(src/sa_stocks.py:110-114) — one blocking HTTP request (the `call`
parameter; timeout, transport error and non-2xx status are all `.error`)
under the policy of up to 7 attempts. -/
def requests_get_with_retry {α : Type} (call : ℕ → Except Unit α) : RetryTrace α :=
  retryFrom call 7 1

/-- The decoded JSON body of the news response (src/sa_stocks.py:121-128):
`data['status']` may be absent (`none`); `data['results']` is the article
list. -/
structure NewsApiData where
  status : Option String
  results : List RawArticle
deriving DecidableEq

/-- `get_stock_news` (src/sa_stocks.py:117-133).  The single
`requests.get(url, timeout=10)` call — not wrapped in
`requests_get_with_retry` — is the parameter `resp`; a raised
`RequestException` is `.error`, caught by the function's own handler.
Returns (article list returned to the caller, articles persisted via
`save_news_to_db`, number of HTTP attempts made). -/
def get_stock_news (resp : Except Unit NewsApiData) :
    List RawArticle × List RawArticle × ℕ :=
  match resp with
  | .error _ => ([], [], 1)
  | .ok data =>
    if data.status = some "OK" then (data.results, data.results, 1)
    else ([], [], 1)

/-- The durable `state.pkl` file as `main` can encounter it
(src/sa_stocks.py:350-357): missing, present but undeserializable, or a
well-formed pickle of `{processed_tickers, report_data}`. -/
inductive StateFile
  | absent
  | corrupt
  | ok (processed : List String) (report : List (String × ℚ))

/-- The state load inlined at the top of `main` (src/sa_stocks.py:350-357),
equivalently `load_state` (src/sa_stocks.py:33-38): a missing file
(`FileNotFoundError`, or `os.path.exists` false) yields empty state; an
unreadable file makes `pickle.load` raise, and that exception is not caught
by the `except FileNotFoundError` handler. -/
def load_state : StateFile → Except Unit (List String × List (String × ℚ))
  | .absent => .ok ([], [])
  | .corrupt => .error ()
  | .ok p r => .ok (p, r)

/-- Results of the external calls `main` makes for a ticker, keyed by
ticker symbol: `get_stock_news` (the articles it returns after persisting),
`get_rsi`, `get_macd`, `vader_sentiment_analysis` and
`gpt_sentiment_analysis` (label lists computed from the persisted articles
and the external analyzers), `get_recent_price`, and `get_historical_price`
as its (high, low) pair. -/
structure Env where
  news : String → List RawArticle
  rsi : String → Option ℚ
  macd : String → Option ℚ
  vader : String → List String
  gpt : String → List String
  recent_price : String → Option ℚ
  hist_price : String → Option ℚ × Option ℚ

/-- One row of the `sentiment_scores` table as inserted by `save_to_db`
(src/sa_stocks.py:313-328); the `date` column comes from the external clock
and is dropped. -/
structure ScoreRow where
  ticker : String
  vader_total : ℚ
  gpt_total : ℚ
  hist_high : Option ℚ
  hist_low : Option ℚ
  score : ℚ
  recent : Option ℚ
  rsi : Option ℚ
  macd : Option ℚ
deriving DecidableEq

/-- How a run of `main` ends: the report is printed and written, `main`
returns early because no tickers were loaded, or an exception reached the
catch-all handler (src/sa_stocks.py:453-455) and the rest of the batch was
abandoned with no report produced. -/
inductive RunOutcome
  | completed (report : List (String × ℚ))
  | exitedNoTickers
  | aborted
deriving DecidableEq

/-- The externally visible effects of one run of `main`: tickers for which
the fetch pass called the news/indicator providers, rows appended to the
score store, successive `state.pkl` snapshots written, and the outcome. -/
structure RunResult where
  news_fetches : List String
  score_rows : List ScoreRow
  checkpoints : List (List String × List (String × ℚ))
  outcome : RunOutcome
deriving DecidableEq

/-- One step of Python's stable sort with
`key=lambda x: x[1], reverse=True` (src/sa_stocks.py:448): insert a row
after every row with a greater-or-equal score. -/
def insertDesc (x : String × ℚ) : List (String × ℚ) → List (String × ℚ)
  | [] => [x]
  | y :: ys => if y.2 < x.2 then x :: y :: ys else y :: insertDesc x ys

/-- `report_data.sort(key=lambda x: x[1], reverse=True)`: stable descending
sort by score, ties keeping insertion order. -/
def sortByScoreDesc (l : List (String × ℚ)) : List (String × ℚ) :=
  l.foldl (fun acc x => insertDesc x acc) []

/-- The scoring pass of `main` (src/sa_stocks.py:396-445) over the
remaining ticker list, threading the growing `processed_tickers` and
`report_data` lists.  Already-processed tickers are skipped; a ticker whose
strategies yield no labels is skipped without checkpointing; otherwise the
aggregated score is computed, a score row is inserted, the report row
appended, and the state checkpointed.  An exception from the aggregator
(e.g. a `None` indicator) propagates: nothing further runs.  Returns
(score rows inserted, checkpoints written, final report or the propagated
error). -/
def scorePass (env : Env) :
    List String → List String → List (String × ℚ) →
    List ScoreRow × List (List String × List (String × ℚ)) ×
      Except Unit (List (String × ℚ))
  | [], _, report => ([], [], .ok report)
  | t :: rest, processed, report =>
    if t ∈ processed then scorePass env rest processed report
    else if (env.vader t).length = 0 ∨ (env.gpt t).length = 0 then
      scorePass env rest processed report
    else
      match calculate_aggregated_score (sentimentTotal (env.vader t))
          (sentimentTotal (env.gpt t)) (env.hist_price t).2 (env.hist_price t).1
          (env.recent_price t) ((env.news t).length : ℤ) (env.rsi t) (env.macd t)
          ((env.vader t).length) with
      | .error _ => ([], [], .error ())
      | .ok score =>
        (⟨t, sentimentTotal (env.vader t), sentimentTotal (env.gpt t),
            (env.hist_price t).1, (env.hist_price t).2, score,
            env.recent_price t, env.rsi t, env.macd t⟩ ::
          (scorePass env rest (processed ++ [t]) (report ++ [(t, score)])).1,
         (processed ++ [t], report ++ [(t, score)]) ::
          (scorePass env rest (processed ++ [t]) (report ++ [(t, score)])).2.1,
         (scorePass env rest (processed ++ [t]) (report ++ [(t, score)])).2.2)

/-- `main` (src/sa_stocks.py:343-455).  Loads state (a corrupt state file
aborts via the catch-all handler before any work); returns early on an
empty ticker list; otherwise runs the fetch pass over every
not-yet-processed ticker (line 376-392; its results are the `env`), resets
`report_data` to the empty list (line 367) discarding the loaded report
rows, runs the scoring pass, and finally sorts and prints the report —
unless an exception aborted the batch. -/
def runMain (s : StateFile) (tickers : List String) (env : Env) : RunResult :=
  match load_state s with
  | .error _ => ⟨[], [], [], .aborted⟩
  | .ok (processed, _) =>
    if tickers.isEmpty then ⟨[], [], [], .exitedNoTickers⟩
    else
      match (scorePass env tickers processed []).2.2 with
      | .error _ =>
        ⟨tickers.filter (fun t => !(processed.contains t)),
         (scorePass env tickers processed []).1,
         (scorePass env tickers processed []).2.1, .aborted⟩
      | .ok report =>
        ⟨tickers.filter (fun t => !(processed.contains t)),
         (scorePass env tickers processed []).1,
         (scorePass env tickers processed []).2.1,
         .completed (sortByScoreDesc report)⟩

/-- A benign concrete environment: every ticker has one persisted article,
one "Good" label from each strategy, recent price 10 inside the weekly
range [5, 20], RSI 50 and MACD 0 — aggregating to score 0. -/
def envBenign : Env :=
  { news := fun _ => [⟨"t", "d"⟩]
    rsi := fun _ => some 50
    macd := fun _ => some 0
    vader := fun _ => ["Good"]
    gpt := fun _ => ["Good"]
    recent_price := fun _ => some 10
    hist_price := fun _ => (some 20, some 5) }

/-- Like `envBenign` but the RSI indicator is absent for ticker "A"
(`get_rsi` returned `None`). -/
def envNoRsiA : Env :=
  { envBenign with rsi := fun t => if t = "A" then none else some 50 }

end SAStocks

namespace SAStocks

theorem abs_sentiment_weight_le (l : String) : |(sentiment_scores l).getD 0| ≤ 1 := by
  unfold sentiment_scores
  split_ifs <;> rw [abs_le] <;> constructor <;> norm_num

theorem abs_sentimentTotal_le (ls : List String) :
    |sentimentTotal ls| ≤ (ls.length : ℚ) := by
  induction ls with
  | nil => simp [sentimentTotal]
  | cons a t ih =>
    have ha := abs_sentiment_weight_le a
    have h1 : sentimentTotal (a :: t) = (sentiment_scores a).getD 0 + sentimentTotal t := by
      simp [sentimentTotal]
    rw [h1]
    calc |(sentiment_scores a).getD 0 + sentimentTotal t|
        ≤ |(sentiment_scores a).getD 0| + |sentimentTotal t| := abs_add _ _
      _ ≤ 1 + (t.length : ℚ) := add_le_add ha ih
      _ = ((a :: t).length : ℚ) := by push_cast [List.length_cons]; ring

theorem restOfScore_ok_bound (vs gs ps : ℚ) (vol : ℤ) (rsi macd : Option ℚ) (s : ℚ)
    (hvs : |vs| ≤ 1) (hgs : |gs| ≤ 1) (hps : |ps| ≤ 1)
    (hok : restOfScore vs gs ps vol rsi macd = .ok s) : -1 ≤ s ∧ s ≤ 1 := by
  match rsi, macd with
  | none, _ => simp [restOfScore] at hok
  | some rs, none => simp [restOfScore] at hok
  | some rs, some m =>
    simp only [restOfScore, Except.ok.injEq] at hok
    rw [abs_le] at hvs hgs hps
    have h4 : -1 ≤ (if vol > 10 then (1 : ℚ) else if vol < 5 then -1 else 0) ∧
        (if vol > 10 then (1 : ℚ) else if vol < 5 then -1 else 0) ≤ 1 := by
      split_ifs <;> norm_num
    have h5 : -1 ≤ (if rs < 30 then (-1 : ℚ) else if rs > 70 then 1 else 0) ∧
        (if rs < 30 then (-1 : ℚ) else if rs > 70 then 1 else 0) ≤ 1 := by
      split_ifs <;> norm_num
    have h6 : -1 ≤ (if m < 0 then (-1 : ℚ) else if m > 0 then 1 else 0) ∧
        (if m < 0 then (-1 : ℚ) else if m > 0 then 1 else 0) ≤ 1 := by
      split_ifs <;> norm_num
    subst hok
    constructor
    · linarith [h4.1, h5.1, h6.1, hvs.1, hgs.1, hps.1]
    · linarith [h4.2, h5.2, h6.2, hvs.2, hgs.2, hps.2]

theorem calc_some_eq (vt gt l h r rs m : ℚ) (vol : ℤ) (n : ℕ) (hn : n ≠ 0) :
    calculate_aggregated_score vt gt (some l) (some h) (some r) vol (some rs) (some m) n =
      .ok ((vt / (n : ℚ) + gt / (n : ℚ)
        + (if r < l then (-1 : ℚ) else if r > h then 1 else 0)
        + (if vol > 10 then (1 : ℚ) else if vol < 5 then -1 else 0)
        + (if rs < 30 then (-1 : ℚ) else if rs > 70 then 1 else 0)
        + (if m < 0 then (-1 : ℚ) else if m > 0 then 1 else 0)) / 6) := by
  unfold calculate_aggregated_score restOfScore
  simp only [hn, if_false, ite_false]
  split_ifs with h1 <;> simp [h1]

/-- C1: with all price and indicator inputs present and a positive article
count, `calculate_aggregated_score` returns
`(vaderSum/num + gptSum/num + priceScore + volumeScore + rsiScore + macdScore)/6`
with the four component scores given by the sign tests of the claim. -/
theorem C1_aggregated_score_formula (vt gt l h r rs m : ℚ) (vol : ℤ) (n : ℕ)
    (hn : 0 < n) :
    calculate_aggregated_score vt gt (some l) (some h) (some r) vol (some rs) (some m) n =
      .ok ((vt / (n : ℚ) + gt / (n : ℚ)
        + (if r < l then (-1 : ℚ) else if r > h then 1 else 0)
        + (if vol > 10 then (1 : ℚ) else if vol < 5 then -1 else 0)
        + (if rs < 30 then (-1 : ℚ) else if rs > 70 then 1 else 0)
        + (if m < 0 then (-1 : ℚ) else if m > 0 then 1 else 0)) / 6) :=
  calc_some_eq vt gt l h r rs m vol n hn.ne'

/-- C1 witness: the spec's worked example — vaderSum 2, gptSum 1, two
articles, recent price 105 against range [90, 100], 12 articles of news
volume, RSI 75, MACD 1/2 — yields 11/12. -/
theorem C1_witness :
    calculate_aggregated_score 2 1 (some 90) (some 100) (some 105) 12
      (some 75) (some (1/2)) 2 = .ok (11/12) := by
  rw [C1_aggregated_score_formula 2 1 90 100 105 75 (1/2) 12 2 (by norm_num)]
  exact congrArg Except.ok (by norm_num)

/-- C9: whenever the aggregator is run on sentiment totals built from label
lists drawn from the seven-label set, with `numArticles` equal to the
(positive) lexicon label count and at most as many generative labels, any
score it successfully returns lies in [-1, 1]. -/
theorem C9_aggregated_score_in_range (vs gs : List String)
    (_hv : ∀ l ∈ vs, l ∈ sentimentLabels) (_hg : ∀ l ∈ gs, l ∈ sentimentLabels)
    (hn : 0 < vs.length) (hle : gs.length ≤ vs.length)
    (lo hi recent rsi macd : Option ℚ) (vol : ℤ) (s : ℚ)
    (hok : calculate_aggregated_score (sentimentTotal vs) (sentimentTotal gs)
      lo hi recent vol rsi macd vs.length = .ok s) :
    -1 ≤ s ∧ s ≤ 1 := by
  have hnz : vs.length ≠ 0 := hn.ne'
  have hnq : (0 : ℚ) < (vs.length : ℚ) := by exact_mod_cast hn
  have hvt : |sentimentTotal vs / (vs.length : ℚ)| ≤ 1 := by
    rw [abs_div, abs_of_pos hnq]
    exact div_le_one_of_le₀ (abs_sentimentTotal_le vs) hnq.le
  have hgt : |sentimentTotal gs / (vs.length : ℚ)| ≤ 1 := by
    rw [abs_div, abs_of_pos hnq]
    refine div_le_one_of_le₀ ((abs_sentimentTotal_le gs).trans ?_) hnq.le
    exact_mod_cast hle
  rcases recent with _ | r
  · simp [calculate_aggregated_score, hnz] at hok
  rcases lo with _ | l
  · simp [calculate_aggregated_score, hnz] at hok
  simp only [calculate_aggregated_score, hnz, if_false, ite_false] at hok
  split_ifs at hok with hrl
  · exact restOfScore_ok_bound _ _ _ _ _ _ _ hvt hgt (by norm_num) hok
  · rcases hi with _ | h
    · simp at hok
    · refine restOfScore_ok_bound _ _ _ _ _ _ _ hvt hgt ?_ hok
      split_ifs <;> norm_num

/-- C9 witness: a single "Good" lexicon label and a single "Good" generative
label with benign indicators score 0, inside [-1, 1]. -/
theorem C9_witness : -1 ≤ (0 : ℚ) ∧ (0 : ℚ) ≤ 1 :=
  C9_aggregated_score_in_range ["Good"] ["Good"] (by decide) (by decide)
    (by decide) (by decide) (some 5) (some 20) (some 10) (some 50) (some 0) 1 0
    (by
      have h : sentimentTotal ["Good"] = 1/2 := by
        simp +decide [sentimentTotal, sentiment_scores]
      rw [show (["Good"] : List String).length = 1 from rfl, h,
        calc_some_eq (1/2) (1/2) 5 20 10 50 0 1 1 (by norm_num)]
      exact congrArg Except.ok (by norm_num))

/-- C2 counterexample: the claim says a compound score of exactly 1.0
classifies as VeryGood (top bin closed on both ends); in the code the top
bin of the left-closed `IntervalIndex` is [0.8, 1), so `get_loc(1.0)` finds
no bin and raises `KeyError` — no label is produced. -/
theorem C2_counterexample : vaderLabelOfCompound 1 = none := by
  norm_num [vaderLabelOfCompound]

/-- C2 amended: the five bins are left-closed and right-open including the
top one; the edges -0.8, -0.35, 0.35 and 0.8 classify as Bad, Neutral, Good
and VeryGood as claimed, every compound score in [-1, 1) receives a label,
but a score of exactly 1.0 receives none (`KeyError`). -/
theorem C2_amended :
    vaderLabelOfCompound (-(8/10)) = some "Bad" ∧
    vaderLabelOfCompound (-(35/100)) = some "Neutral" ∧
    vaderLabelOfCompound (35/100) = some "Good" ∧
    vaderLabelOfCompound (8/10) = some "Very good" ∧
    vaderLabelOfCompound 1 = none ∧
    ∀ c : ℚ, -1 ≤ c → c < 1 → (vaderLabelOfCompound c).isSome = true := by
  refine ⟨by norm_num [vaderLabelOfCompound], by norm_num [vaderLabelOfCompound],
    by norm_num [vaderLabelOfCompound], by norm_num [vaderLabelOfCompound],
    by norm_num [vaderLabelOfCompound], ?_⟩
  intro c h1 h2
  unfold vaderLabelOfCompound
  split_ifs with a b d e f
  · rfl
  · rfl
  · rfl
  · rfl
  · rfl
  · exfalso
    have k1 : -(8/10 : ℚ) ≤ c := le_of_not_lt fun hc => a ⟨h1, hc⟩
    have k2 : -(35/100 : ℚ) ≤ c := le_of_not_lt fun hc => b ⟨k1, hc⟩
    have k3 : (35/100 : ℚ) ≤ c := le_of_not_lt fun hc => d ⟨k2, hc⟩
    have k4 : (8/10 : ℚ) ≤ c := le_of_not_lt fun hc => e ⟨k3, hc⟩
    exact f ⟨k4, h2⟩

/-- C2 witness: a neutral compound score of 0 is classified. -/
theorem C2_witness : (vaderLabelOfCompound 0).isSome = true :=
  C2_amended.2.2.2.2.2 0 (by norm_num) (by norm_num)

/-- C4: the claim says the generative strategy retries up to 4 times per
article and always records a label per filtered article, so the label
sequence has the filtered sequence's length.  In the code `max_retries` is a
single counter for the whole ticker, decremented on every call including
successful ones: five filtered articles whose model calls all succeed yield
only 4 labels (the fifth article's loop body never runs), not 5. -/
theorem C4_shared_retry_budget :
    (gpt_sentiment_analysis (fun _ => .ok "Good")
        (List.replicate 5 ("2024-01-01", "t", "d"))).length = 4 ∧
    ((List.replicate 5 ("2024-01-01", "t", "d")).filter
        (fun r => !(r.2.1 = "") && !(r.2.2 = ""))).length = 5 := by
  constructor <;> decide

/-- C3: under the spec-modelled retry policy, a call failing on attempts
1-6 and succeeding on attempt 7 returns that success with exactly 7
attempts, sleeping min(1000ms * 2^(k-2), 10000ms) before each attempt
k = 2..7 regardless of the call's behaviour beyond attempt 7; a call
failing on all 7 attempts propagates the failure with exactly 7 attempts
and the same sleeps, never a default value. -/
theorem C3_retry_policy :
    (∀ (call : ℕ → Except Unit ℚ) (a : ℚ),
      (∀ k, 1 ≤ k → k ≤ 6 → call k = .error ()) → call 7 = .ok a →
      requests_get_with_retry call = ⟨7, (List.range' 2 6).map retryWait, .ok a⟩) ∧
    (∀ call : ℕ → Except Unit ℚ,
      (∀ k, 1 ≤ k → k ≤ 7 → call k = .error ()) →
      requests_get_with_retry call = ⟨7, (List.range' 2 6).map retryWait, .error ()⟩) := by
  constructor
  · intro call a hfail hsucc
    have h1 := hfail 1 (by norm_num) (by norm_num)
    have h2 := hfail 2 (by norm_num) (by norm_num)
    have h3 := hfail 3 (by norm_num) (by norm_num)
    have h4 := hfail 4 (by norm_num) (by norm_num)
    have h5 := hfail 5 (by norm_num) (by norm_num)
    have h6 := hfail 6 (by norm_num) (by norm_num)
    simp [requests_get_with_retry, retryFrom, h1, h2, h3, h4, h5, h6, hsucc,
      List.range']
  · intro call hfail
    have h1 := hfail 1 (by norm_num) (by norm_num)
    have h2 := hfail 2 (by norm_num) (by norm_num)
    have h3 := hfail 3 (by norm_num) (by norm_num)
    have h4 := hfail 4 (by norm_num) (by norm_num)
    have h5 := hfail 5 (by norm_num) (by norm_num)
    have h6 := hfail 6 (by norm_num) (by norm_num)
    have h7 := hfail 7 (by norm_num) (by norm_num)
    simp [requests_get_with_retry, retryFrom, h1, h2, h3, h4, h5, h6, h7,
      List.range']

/-- C3 witness: a call that succeeds only at attempt 7. -/
theorem C3_witness :
    requests_get_with_retry (fun k => if k = 7 then .ok (0 : ℚ) else .error ()) =
      ⟨7, (List.range' 2 6).map retryWait, .ok 0⟩ :=
  C3_retry_policy.1 (fun k => if k = 7 then .ok (0 : ℚ) else .error ()) 0
    (fun k h1 h6 => by interval_cases k <;> rfl) (by rfl)

/-- C7 counterexample: the claim says the news fetch runs under the retry
executor (up to 7 attempts) and escalates exhausted failures instead of
returning a default; in the code a failing request makes exactly one
attempt and `get_stock_news` silently returns the empty article list. -/
theorem C7_counterexample : get_stock_news (.error ()) = ([], [], 1) := rfl

/-- C7 amended: `get_stock_news` performs a single un-retried request for
every call; on a request failure it catches the exception and returns the
empty list (persisting nothing), so the ticker proceeds and is later
skipped by the empty-label guard rather than excluded as a ticker-level
retry failure; on an OK-status response it returns and persists the
results. -/
theorem C7_amended :
    (∀ resp : Except Unit NewsApiData, (get_stock_news resp).2.2 = 1) ∧
    get_stock_news (.error ()) = ([], [], 1) ∧
    (∀ d : NewsApiData, d.status = some "OK" →
      get_stock_news (.ok d) = (d.results, d.results, 1)) := by
  refine ⟨?_, rfl, ?_⟩
  · intro resp
    cases resp with
    | error e => rfl
    | ok d =>
      show (if d.status = some "OK" then (d.results, d.results, 1)
        else ([], [], (1 : ℕ))).2.2 = 1
      split_ifs <;> rfl
  · intro d hd
    simp [get_stock_news, hd]

/-- C7 witness: an OK response with one article is returned and persisted
in one attempt. -/
theorem C7_witness :
    get_stock_news (.ok ⟨some "OK", [⟨"t", "d"⟩]⟩) = ([⟨"t", "d"⟩], [⟨"t", "d"⟩], 1) :=
  C7_amended.2.2 ⟨some "OK", [⟨"t", "d"⟩]⟩ rfl

theorem calc_rsi_none (vt gt : ℚ) (lo hi recent : Option ℚ) (vol : ℤ)
    (macd : Option ℚ) (n : ℕ) :
    calculate_aggregated_score vt gt lo hi recent vol none macd n = .error () := by
  unfold calculate_aggregated_score
  split_ifs with h0
  · rfl
  · rcases recent with _ | r
    · rfl
    · rcases lo with _ | l
      · rfl
      · dsimp only
        split_ifs with hrl
        · rfl
        · rcases hi with _ | h <;> rfl

theorem scorePass_abort (env : Env) (t : String) (rest processed : List String)
    (report : List (String × ℚ))
    (hp : t ∉ processed)
    (hv : (env.vader t).length ≠ 0) (hg : (env.gpt t).length ≠ 0)
    (hrsi : env.rsi t = none) :
    scorePass env (t :: rest) processed report = ([], [], .error ()) := by
  have hcalc := calc_rsi_none (sentimentTotal (env.vader t))
    (sentimentTotal (env.gpt t)) (env.hist_price t).2 (env.hist_price t).1
    (env.recent_price t) ((env.news t).length : ℤ) (env.macd t)
    ((env.vader t).length)
  simp only [scorePass, hp, hrsi, if_false, ite_false, hcalc]
  simp [hv, hg]

/-- C6 counterexample: the claim says a ticker with an absent RSI is
skipped with a warning and the batch continues; in the code the `None`
reaches the aggregator's comparison, the TypeError propagates to the
catch-all handler, and the whole run aborts — here ticker "B" after the
failing "A" is never scored, nothing is checkpointed and no report is
produced. -/
theorem C6_counterexample :
    runMain .absent ["A", "B"] envNoRsiA = ⟨["A", "B"], [], [], .aborted⟩ := by
  have h := scorePass_abort envNoRsiA "A" ["B"] [] [] (by decide)
    (by decide) (by decide) (by decide)
  simp [runMain, load_state, h]

/-- C6 amended: an absent required indicator is not caught before the
aggregator — the aggregator's comparison raises, the exception reaches
`main`'s catch-all handler, and the run aborts: the ticker gets no report
entry, but no later ticker is processed either, no checkpoint is written
and no report is produced. -/
theorem C6_missing_indicator_aborts_batch (env : Env) (s : StateFile)
    (processed : List String) (rep : List (String × ℚ)) (t : String)
    (rest : List String)
    (hload : load_state s = .ok (processed, rep))
    (hp : t ∉ processed)
    (hv : (env.vader t).length ≠ 0) (hg : (env.gpt t).length ≠ 0)
    (hrsi : env.rsi t = none) :
    runMain s (t :: rest) env =
      ⟨(t :: rest).filter (fun x => !(processed.contains x)), [], [], .aborted⟩ := by
  have h := scorePass_abort env t rest processed [] hp hv hg hrsi
  simp [runMain, hload, h]

/-- C6 witness: a one-ticker batch whose RSI is absent aborts with no
effects. -/
theorem C6_witness :
    runMain .absent ["A"] envNoRsiA = ⟨["A"], [], [], .aborted⟩ := by
  have h := C6_missing_indicator_aborts_batch envNoRsiA .absent [] [] "A" []
    rfl (by decide) (by decide) (by decide) (by decide)
  simpa using h

/-- C5: given a checkpoint where "A" of ["A", "B"] is already processed
(with its carried-over report row), run 2 processes exactly the remaining
ticker "B" — but because `main` resets `report_data` to `[]` after loading
the state (src/sa_stocks.py:367), the final report contains only "B": the
checkpointed row for "A" is dropped instead of merged, contradicting the
claim that the final report contains all M tickers. -/
theorem C5_report_drops_checkpointed_rows :
    runMain (.ok ["A"] [("A", 1/2)]) ["A", "B"] envBenign =
      ⟨["B"],
       [⟨"B", 1/2, 1/2, some 20, some 5, 0, some 10, some 50, some 0⟩],
       [(["A", "B"], [("B", 0)])],
       .completed [("B", 0)]⟩ := by
  have hvt : sentimentTotal ["Good"] = 1/2 := by
    simp +decide [sentimentTotal, sentiment_scores]
  have hcalc : calculate_aggregated_score (2⁻¹) (2⁻¹) (some 5) (some 20)
      (some 10) 1 (some 50) (some 0) 1 = .ok 0 := by
    rw [calc_some_eq (2⁻¹) (2⁻¹) 5 20 10 50 0 1 1 (by norm_num)]
    exact congrArg Except.ok (by norm_num)
  simp +decide [runMain, load_state, scorePass, envBenign, hvt, hcalc,
    sortByScoreDesc, insertDesc]

/-- C8 counterexample: the claim says an unreadable state file yields empty
state and the run proceeds; in the code the pickle error escapes the
`except FileNotFoundError` handler and the run aborts before fetching
anything — with one ticker "A" present, nothing is fetched, scored,
checkpointed or reported. -/
theorem C8_counterexample :
    runMain .corrupt ["A"] envBenign = ⟨[], [], [], .aborted⟩ := rfl

/-- C8 amended: a missing state file loads as empty state (non-fatal), but
an unreadable state file raises out of the narrow `FileNotFoundError`
handler: the run aborts with no effects instead of proceeding from empty
state. -/
theorem C8_corrupt_state_aborts :
    load_state .absent = .ok ([], []) ∧
    load_state .corrupt = .error () ∧
    (∀ (tickers : List String) (env : Env),
      runMain .corrupt tickers env = ⟨[], [], [], .aborted⟩) :=
  ⟨rfl, rfl, fun _ _ => rfl⟩

/-- C10: with an empty ticker list `main` returns right after loading it:
the fetch pass contacts no provider, no score row is inserted, no
checkpoint is written and no report is produced, for both an absent state
file and any well-formed one. -/
theorem C10_empty_ticker_list (env : Env) (p : List String)
    (rep : List (String × ℚ)) :
    runMain .absent [] env = ⟨[], [], [], .exitedNoTickers⟩ ∧
    runMain (.ok p rep) [] env = ⟨[], [], [], .exitedNoTickers⟩ :=
  ⟨rfl, rfl⟩

end SAStocks
